import Mathlib

/-!
Verification development for the TIPSweb session-authentication gateway
(`server.py`): a shallow embedding of the token validator, the session
store, the auth flow controller (callback/logout), the authorization
guard, the backend session proxy, and the `/auth/info` endpoint, with
theorems about the stated invariants and error-handling contracts.

External effects are made explicit: upstream HTTP calls become parameters
of type `Except String α` (where `.error` stands for a raised
`requests.RequestException`), and handlers that can let a Python
exception escape return `Except String Response` (where `.error` is the
unhandled exception's kind). Handlers that talk to the backend also
return the list of JSON bodies they sent, so that theorems can speak
about what was transmitted.
-/

namespace TIPSweb

/-- Atomic JSON values appearing in the gateway's bodies. -/
inductive JAtom where
  | null : JAtom
  | str : String → JAtom
  | num : Nat → JAtom
  | strs : List String → JAtom
deriving DecidableEq

/-- Minimal JSON value type for request and response bodies: an atom or
a one-level object of atomic fields (all bodies the gateway builds have
this shape; opaque upstream bodies are quantified over this type). -/
inductive Json where
  | atom : JAtom → Json
  | obj : List (String × JAtom) → Json
deriving DecidableEq

/-- Shorthand for a JSON string value. -/
def jStr (s : String) : Json := .atom (.str s)

/-- Shorthand for JSON null. -/
def jNull : Json := .atom .null

/-- Python `None`-or-string rendered to JSON. -/
def jOptStr (s : Option String) : JAtom :=
  match s with
  | none => .null
  | some v => .str v

/-- A signing key of the JWKS, identified by its key id (`kid`). -/
structure Key where
  kid : String
deriving DecidableEq

/-- Environment-sourced configuration: the fetched JWKS, the expected
audience, the identity provider's domain, and the OAuth client id. -/
structure Env where
  jwks : List Key
  audience : String
  auth0_domain : String
  auth0_client_id : String
deriving DecidableEq

/-- The trusted issuer string, as built in `validate_token`:
an https URL derived from the provider domain. -/
def Env.issuer (env : Env) : String :=
  "https://" ++ env.auth0_domain ++ "/"

/-- Claims carried by a decoded token: subject, optional email,
permissions list, expiry instant, audience and issuer strings. -/
structure Claims where
  sub : Option String
  email : Option String
  permissions : List String
  exp : Nat
  aud : String
  iss : String
deriving DecidableEq

/-- Abstract bearer token. `malformed` means `jws.get_unverified_header`
raises on it; `kid` is the key id in its header; `sigValid` means its
signature verifies under the key the JWKS lookup returns for `kid`. -/
structure Token where
  malformed : Bool
  kid : String
  sigValid : Bool
  claims : Claims
deriving DecidableEq

/-- The OAuth token set stored in the session; only `access_token` is
ever inspected by the gateway. -/
structure TokenSet where
  access_token : Token
deriving DecidableEq

/-- The dict stored under `session["user"]`: the OAuth token set (absent
when the dict has no `"token"` key) and the permissions snapshot taken
at callback time. -/
structure User where
  token : Option TokenSet
  permissions : List String
deriving DecidableEq

/-- Per-browser server-side session state used by the gateway:
`user`, `simulation_session` and `return_to` keys. -/
structure SessionData where
  user : Option User
  simulation_session : Option Json
  return_to : Option String
deriving DecidableEq

/-- The session in its initial or cleared state: no keys set. -/
def emptySession : SessionData :=
  { user := none, simulation_session := none, return_to := none }

/-- Failure modes of `jose.jwt.decode` relevant to this gateway.
`malformedToken`, `badSignature`, `expired` and `claimsRejected` are
raised as subclasses of `JWTError` or `JWSError` and hence caught by
`validate_token`; `unknownKey` surfaces as `jose.exceptions.JWKError`
from `jwk.construct(None, "RS256")` — a sibling of `JWTError` and
`JWSError` under `JOSEError` — and therefore escapes `validate_token`'s
except clause. -/
inductive DecodeError where
  | malformedToken
  | unknownKey
  | badSignature
  | expired
  | claimsRejected
deriving DecidableEq

/-- Linear scan of the fetched JWKS for a key with the given kid,
returning the first match or `none` (`find_public_key` in the source). -/
def find_public_key (jwks : List Key) (kid : String) : Option Key :=
  jwks.find? (fun k => k.kid == kid)

/-- Model of `jose.jwt.decode(token, key, audience, issuer, RS256)`:
a missing key or bad signature raises a signature error; an expiry not
in the future raises `ExpiredSignatureError`; an audience or issuer
mismatch raises `JWTClaimsError`; otherwise the claims are returned. -/
def jwt_decode (env : Env) (now : Nat) (t : Token) (key : Option Key) :
    Except DecodeError Claims :=
  match key with
  | none => .error .unknownKey
  | some _ =>
    if !t.sigValid then .error .badSignature
    else if t.claims.exp ≤ now then .error .expired
    else if t.claims.aud ≠ env.audience then .error .claimsRejected
    else if t.claims.iss ≠ env.issuer then .error .claimsRejected
    else .ok t.claims

/-- `validate_token` from the source: parse the unverified header, look
up the public key by kid, decode with audience and issuer checks. The
`except (JWTError, JWSError)` clause catches malformed-token, bad
signature, expiry and claims failures and returns `None` (`.ok none`);
but when the kid is absent from the JWKS, `jwt.decode(key=None, ...)`
raises `JWKError`, which that clause does not catch, so the exception
escapes the function (`.error "JWKError"`). -/
def validate_token (env : Env) (now : Nat) (t : Token) :
    Except String (Option Claims) :=
  if t.malformed then .ok none
  else
    match jwt_decode env now t (find_public_key env.jwks t.kid) with
    | .ok payload => .ok (some payload)
    | .error .unknownKey => .error "JWKError"
    | .error _ => .ok none

/-- Outcome of the `requires_admin` decorator: redirect to `/login`,
redirect to the landing page, or invoke the wrapped handler. -/
inductive GuardDecision where
  | redirectLogin
  | redirectIndex
  | invoke
deriving DecidableEq

/-- The `requires_admin` guard: no session user or no `"token"` key
redirects to login; otherwise the stored access token is re-validated
fresh — with no surrounding try, so a `JWKError` escaping
`validate_token` propagates out of the guard unhandled — and the
handler runs exactly when the fresh claims contain the `"admin"`
permission; every other non-raising case redirects to the index page. -/
def requires_admin (env : Env) (now : Nat) (s : SessionData) :
    Except String GuardDecision :=
  match s.user with
  | none => .ok .redirectLogin
  | some u =>
    match u.token with
    | none => .ok .redirectLogin
    | some ts =>
      match validate_token env now ts.access_token with
      | .error e => .error e
      | .ok (some payload) =>
        if "admin" ∈ payload.permissions then .ok .invoke else .ok .redirectIndex
      | .ok none => .ok .redirectIndex

/-- `get_current_user_id`: validate the session's stored access token —
with no surrounding try, so an escaping `JWKError` propagates to this
function's caller — and return its `sub` claim; `None` when the
session, token, validation result or claim is missing. -/
def get_current_user_id (env : Env) (now : Nat) (s : SessionData) :
    Except String (Option String) :=
  match s.user with
  | none => .ok none
  | some u =>
    match u.token with
    | none => .ok none
    | some ts =>
      match validate_token env now ts.access_token with
      | .error e => .error e
      | .ok none => .ok none
      | .ok (some payload) => .ok payload.sub

/-- A structured HTTP response a Flask handler can return: a redirect, a
plain-text body with a status code, a JSON body with a status code, or a
rendered template page. -/
inductive Response where
  | redirect : String → Response
  | text : String → Nat → Response
  | jsonResp : Json → Nat → Response
  | page : String → Response
deriving DecidableEq

/-- HTTP status code of a structured response (redirects are 302,
rendered pages 200). -/
def Response.statusCode : Response → Nat
  | .redirect _ => 302
  | .text _ code => code
  | .jsonResp _ code => code
  | .page _ => 200

/-- The JSON dict of the Management-API client-credentials token
response: the `access_token`, `error` and `error_description` keys,
each possibly absent. -/
structure MgmtTokenResp where
  access_token : Option String
  error : Option String
  error_description : Option String
deriving DecidableEq

/-- The JSON dict of a Management-API user lookup: the `email` key,
possibly absent. -/
structure MgmtUserResp where
  email : Option String
deriving DecidableEq

/-- Behaviour of the identity provider's Management API as seen by the
gateway: the outcome of the client-credentials token POST and of the
per-user GET; `.error` stands for a raised `requests.RequestException`. -/
structure MgmtApi where
  tokenResp : Except String MgmtTokenResp
  userResp : String → Except String MgmtUserResp

/-- `get_user_email_from_auth0`: obtain an M2M token (a network failure
raises); a token response without `access_token` yields `None`; then
look up the user (a network failure raises) and return its `email` key,
or `None` when absent. -/
def get_user_email_from_auth0 (mgmt : MgmtApi) (user_id : String) :
    Except String (Option String) :=
  match mgmt.tokenResp with
  | .error e => .error e
  | .ok tok =>
    match tok.access_token with
    | none => .ok none
    | some _ =>
      match mgmt.userResp user_id with
      | .error e => .error e
      | .ok user_data => .ok user_data.email

/-- Outcome of `oauth.auth0.authorize_access_token()` in `/callback`:
an `requests.exceptions.HTTPError`, any other exception (for example a
malformed token response), or a token set. -/
inductive ExchangeResult where
  | httpError : String → ExchangeResult
  | exnFailure : String → ExchangeResult
  | ok : TokenSet → ExchangeResult
deriving DecidableEq

/-- Message of the `AttributeError` raised in `/callback` when
`validate_token` returns `None` and `.get` is called on it. -/
def noneGetError : String :=
  "AttributeError: NoneType object has no attribute get"

/-- The `/callback` handler: exchange the authorization code, validate
the access token, store `session["user"]` with the token set and the
validated claims' permissions, pop `return_to` and redirect there or to
`/`. The whole body sits in a try whose `except Exception` catches every
failure — an `HTTPError`, any other exchange failure, the `JWKError`
escaping `validate_token`, or the `AttributeError` raised when
validation returned `None` — and answers with the exception text and
status 401, leaving the session as it was. -/
def callback (env : Env) (now : Nat) (exch : ExchangeResult) (s : SessionData) :
    Response × SessionData :=
  match exch with
  | .httpError msg => (.text msg 401, s)
  | .exnFailure msg => (.text msg 401, s)
  | .ok ts =>
    match validate_token env now ts.access_token with
    | .error e => (.text e 401, s)
    | .ok none => (.text noneGetError 401, s)
    | .ok (some payload) =>
      let s1 : SessionData :=
        { s with user := some { token := some ts, permissions := payload.permissions } }
      match s1.return_to with
      | some rt => (.redirect rt, { s1 with return_to := none })
      | none => (.redirect "/", s1)

/-- External URL of the gateway's index page (`url_for("index",
_external=True)`); abstracted as an opaque constant since the model does
not track the gateway's own host. -/
def index_external_url : String := "https://gateway.example/"

/-- The provider logout URL built by `/logout` (URL-encoding of the
query parameters is abstracted to plain concatenation). -/
def logout_url (env : Env) : String :=
  "https://" ++ env.auth0_domain ++ "/v2/logout?returnTo=" ++
    index_external_url ++ "&client_id=" ++ env.auth0_client_id

/-- The try-block of `/logout`, entered with the already-resolved user
id: look up the user's email via the Management API and request backend
deletion of the simulation session; the result is only logged.
`backendDelete` is the outcome of the backend DELETE (`.error` for a
network failure). -/
def logout_attempt (mgmt : MgmtApi) (backendDelete : Except String Nat)
    (user_id : Option String) : Except String Unit :=
  match user_id with
  | none => .ok ()
  | some uid =>
    match get_user_email_from_auth0 mgmt uid with
    | .error e => .error e
    | .ok none => .ok ()
    | .ok (some _) =>
      match backendDelete with
      | .error e => .error e
      | .ok _status => .ok ()

/-- The `/logout` handler: resolve the current user — this call sits
before the try-block and before `session.clear()`, so a `JWKError`
escaping `validate_token` propagates out of the handler with the
session left as it was — then attempt best-effort backend deletion of
the simulation session (any `requests.RequestException` is caught and
logged), then clear the session and redirect to the provider's logout
endpoint. -/
def logout (env : Env) (now : Nat) (mgmt : MgmtApi)
    (backendDelete : Except String Nat) (s : SessionData) :
    Except String (Response × SessionData) :=
  match get_current_user_id env now s with
  | .error e => .error e
  | .ok user_id =>
    match logout_attempt mgmt backendDelete user_id with
    | .ok _ => .ok (.redirect (logout_url env), emptySession)
    | .error _ => .ok (.redirect (logout_url env), emptySession)

/-- The `ERROR_NOT_AUTHENTICATED` message constant. -/
def ERROR_NOT_AUTHENTICATED : String := "Not authenticated"

/-- Outcome of one HTTP call to the backend simulation service: either a
raised `requests.RequestException` (network failure) or a status code
with the parsed JSON body. -/
def BackendResp : Type := Except String (Nat × Json)

/-- JSON error body `\x7b"error": msg\x7d`. -/
def jsonError (msg : String) : Json := .obj [("error", .str msg)]

/-- Body of the 503 answer built when a backend call raises. -/
def connectFailBody (e : String) : Json :=
  jsonError ("Failed to connect to backend service: " ++ e)

/-- Rendering of an atomic JSON value back to text. -/
def JAtom.render : JAtom → String
  | .null => "null"
  | .str s => "\"" ++ s ++ "\""
  | .num n => toString n
  | .strs xs =>
    "[" ++ String.intercalate ", " (xs.map (fun x => "\"" ++ x ++ "\"")) ++ "]"

/-- Rendering of a JSON value back to text (stands in for
`response.text` of a JSON backend reply). -/
def Json.render : Json → String
  | .atom a => a.render
  | .obj fields =>
    "\x7b" ++
      String.intercalate ", "
        (fields.map (fun f => "\"" ++ f.1 ++ "\": " ++ f.2.render)) ++
    "\x7d"

/-- Body of the answer built when the backend returns a non-200 status. -/
def backendStatusBody (code : Nat) (data : Json) : Json :=
  jsonError ("Backend service returned " ++ toString code ++ ": " ++ data.render)

/-- Email resolution of `/api/start-simulation-session`: the validated
token's `email` claim when truthy (`if not email:` in the source, so a
present-but-empty claim is treated like an absent one), otherwise the
Management-API lookup by subject id (whose network failure propagates,
this step being outside the handler's try-block). -/
def resolve_email_with_fallback (mgmt : MgmtApi) (user_id : String)
    (payload : Claims) : Except String (Option String) :=
  match payload.email with
  | some e =>
    if e = "" then get_user_email_from_auth0 mgmt user_id
    else .ok (some e)
  | none => get_user_email_from_auth0 mgmt user_id

/-- The `/api/start-simulation-session` handler. Resolve the current
user — outside any try, so an escaping `JWKError` propagates — answering
401 when absent; re-read the session user and re-validate its token
(the impossible branches reproduce the Python exceptions that would
occur); resolve the email by claim-then-Management-API fallback — also
outside the try-block, so its network failure propagates — answering
400 when the result is falsy (`None` or empty); POST
`\x7b"user": email\x7d` to the backend; on 200 store the body under
`session["simulation_session"]` and return it; on non-200 surface the
backend status; on network failure return 503. The third component
lists the JSON bodies sent to the backend. -/
def start_simulation_session (env : Env) (now : Nat) (mgmt : MgmtApi)
    (bresp : BackendResp) (s : SessionData) :
    Except String (Response × SessionData × List Json) :=
  match get_current_user_id env now s with
  | .error e => .error e
  | .ok none => .ok (.jsonResp (jsonError ERROR_NOT_AUTHENTICATED) 401, s, [])
  | .ok (some user_id) =>
    match s.user with
    | none => .error "TypeError"
    | some u =>
      match u.token with
      | none => .error "KeyError"
      | some ts =>
        match validate_token env now ts.access_token with
        | .error e => .error e
        | .ok none => .error noneGetError
        | .ok (some payload) =>
          match resolve_email_with_fallback mgmt user_id payload with
          | .error e => .error e
          | .ok none => .ok (.jsonResp (jsonError "Failed to retrieve email") 400, s, [])
          | .ok (some e) =>
            if e = "" then
              .ok (.jsonResp (jsonError "Failed to retrieve email") 400, s, [])
            else
              let body : Json := .obj [("user", .str e)]
              match bresp with
              | .error err => .ok (.jsonResp (connectFailBody err) 503, s, [body])
              | .ok (code, data) =>
                if code = 200 then
                  .ok (.jsonResp data 200,
                       { s with simulation_session := some data }, [body])
                else
                  .ok (.jsonResp (backendStatusBody code data) code, s, [body])

/-- The `/get_session` handler. Resolve the current user — outside the
try, so an escaping `JWKError` propagates — answering 401 when absent;
inside the try-block, look up the email via the Management API (`None`
becomes JSON null) and GET the backend with `\x7b"user": email\x7d`;
200 returns the body, non-200 surfaces the backend status, and a
network failure — of the lookup or of the backend call — returns 503.
The third component lists the JSON bodies sent to the backend. -/
def get_session (env : Env) (now : Nat) (mgmt : MgmtApi)
    (bresp : BackendResp) (s : SessionData) :
    Except String (Response × SessionData × List Json) :=
  match get_current_user_id env now s with
  | .error e => .error e
  | .ok none => .ok (.jsonResp (jsonError ERROR_NOT_AUTHENTICATED) 401, s, [])
  | .ok (some user_id) =>
    match get_user_email_from_auth0 mgmt user_id with
    | .error err => .ok (.jsonResp (connectFailBody err) 503, s, [])
    | .ok email =>
      let body : Json := .obj [("user", jOptStr email)]
      match bresp with
      | .error err => .ok (.jsonResp (connectFailBody err) 503, s, [body])
      | .ok (code, data) =>
        if code = 200 then .ok (.jsonResp data 200, s, [body])
        else .ok (.jsonResp (backendStatusBody code data) code, s, [body])

/-- The `/delete_session` handler. Same shape as `/get_session` with a
DELETE; on 200 the `simulation_session` key is popped from the session
and `\x7b"status": "success"\x7d` returned. The third component lists
the JSON bodies sent to the backend. -/
def delete_session (env : Env) (now : Nat) (mgmt : MgmtApi)
    (bresp : BackendResp) (s : SessionData) :
    Except String (Response × SessionData × List Json) :=
  match get_current_user_id env now s with
  | .error e => .error e
  | .ok none => .ok (.jsonResp (jsonError ERROR_NOT_AUTHENTICATED) 401, s, [])
  | .ok (some user_id) =>
    match get_user_email_from_auth0 mgmt user_id with
    | .error err => .ok (.jsonResp (connectFailBody err) 503, s, [])
    | .ok email =>
      let body : Json := .obj [("user", jOptStr email)]
      match bresp with
      | .error err => .ok (.jsonResp (connectFailBody err) 503, s, [body])
      | .ok (code, data) =>
        if code = 200 then
          .ok (.jsonResp (.obj [("status", .str "success")]) 200,
               { s with simulation_session := none }, [body])
        else .ok (.jsonResp (backendStatusBody code data) code, s, [body])

/-- JSON rendering of a validated claims payload as returned by
`jsonify(token_payload)` (optional claims absent from the payload are
rendered as null in this model). -/
def claimsJson (c : Claims) : Json :=
  .obj [("sub", jOptStr c.sub), ("email", jOptStr c.email),
        ("permissions", .strs c.permissions), ("exp", .num c.exp),
        ("aud", .str c.aud), ("iss", .str c.iss)]

/-- `jsonify` applied to the result of `validate_token`: a payload
renders as its claims object, `None` renders as JSON null. -/
def jsonifyPayload (p : Option Claims) : Json :=
  match p with
  | none => jNull
  | some c => claimsJson c

/-- Accumulating worker for `pySplit`: the first argument is the rest
of the characters, the second the reversed current word. -/
def pySplitAux : List Char → List Char → List String
  | [], acc => if acc.isEmpty then [] else [String.mk acc.reverse]
  | c :: cs, acc =>
    if c.isWhitespace then
      if acc.isEmpty then pySplitAux cs []
      else String.mk acc.reverse :: pySplitAux cs []
    else pySplitAux cs (c :: acc)

/-- Python `str.split()` with no argument: split on runs of whitespace,
dropping empty pieces. -/
def pySplit (s : String) : List String :=
  pySplitAux s.data []

/-- Python `str.lower()` (ASCII case folding suffices here). -/
def pyLower (s : String) : String :=
  String.mk (s.data.map Char.toLower)

/-- The `/auth/info` handler. A missing or empty `Authorization` header
is falsy (`if not auth_header:`) and yields 401; otherwise the header
is split on whitespace and `parts[0]` raises an unhandled `IndexError`
when the split is empty (a non-empty all-whitespace header); a first
part other than `bearer` (case-insensitive) or a part count other than
two yields 401; otherwise the second part is validated inside a
try-block whose `except Exception` turns an escaping `JWKError` into a
400 with the exception text, while a caught validation failure returns
`None` and is answered 200 with JSON null, and a payload is answered
200 with its claims. `parseTok` maps the raw bearer string of the
header to its abstract token. -/
def auth_info (env : Env) (now : Nat) (parseTok : String → Token)
    (authHeader : Option String) : Except String Response :=
  match authHeader with
  | none => .ok (.jsonResp (jsonError "Authorization header is missing") 401)
  | some h =>
    if h = "" then .ok (.jsonResp (jsonError "Authorization header is missing") 401)
    else
      match pySplit h with
      | [] => .error "IndexError"
      | [_] => .ok (.jsonResp (jsonError "Invalid Authorization header") 401)
      | [p0, tokenStr] =>
        if pyLower p0 = "bearer" then
          match validate_token env now (parseTok tokenStr) with
          | .error e => .ok (.jsonResp (jsonError e) 400)
          | .ok payload => .ok (.jsonResp (jsonifyPayload payload) 200)
        else .ok (.jsonResp (jsonError "Invalid Authorization header") 401)
      | _ :: _ :: _ :: _ => .ok (.jsonResp (jsonError "Invalid Authorization header") 401)

/-- The `/admin` dashboard body (inside `requires_admin`). The M2M token
POST may raise; a token response with an `error` key renders the
dashboard with `error_description` (whose absence raises `KeyError`);
otherwise a missing `access_token` key raises `KeyError`; the users GET
may raise; its JSON is rendered into the dashboard. -/
def admin_dashboard (mgmt : MgmtApi) (usersResp : Except String Json) :
    Except String Response :=
  match mgmt.tokenResp with
  | .error e => .error e
  | .ok tok =>
    match tok.error with
    | some _ =>
      match tok.error_description with
      | none => .error "KeyError"
      | some _ => .ok (.page "admin-dash.html")
    | none =>
      match tok.access_token with
      | none => .error "KeyError"
      | some _ =>
        match usersResp with
        | .error e => .error e
        | .ok _users => .ok (.page "admin-dash.html")

/-- A character allowed by the character class `[a-zA-Z0-9|_-]`. -/
def allowedIdChar (c : Char) : Bool :=
  c.isAlphanum || c = '|' || c = '_' || c = '-'

/-- Python `re.match` with the anchored pattern on `[a-zA-Z0-9|_-]+`:
matches iff the string, after stripping at most one trailing newline
(Python's end anchor also matches just before a final newline), is
non-empty and made only of allowed characters. -/
def valid_user_id (s : String) : Bool :=
  let cs := s.data
  let core := if cs.getLast? = some '\n' then cs.dropLast else cs
  !core.isEmpty && core.all allowedIdChar

/-- The 400 body answered for an invalid user id. -/
def invalidUserIdBody : Json :=
  .obj [("status", .str "error"), ("message", .str "Invalid user ID format")]

/-- The `/admin/delete-user/<user_id>` body (inside `requires_admin`).
A user id rejected by the regex yields 400 with no provider call; else
the M2M token POST may raise, a token response without `access_token`
raises `KeyError`, the provider DELETE may raise, and the answer is
`status: success` or `status: error` by `delete_response.ok`. The
boolean result records whether the provider DELETE was attempted.
`dresp` is that call's outcome (`delete_response.ok`). -/
def delete_user (mgmt : MgmtApi) (dresp : Except String Bool) (user_id : String) :
    Except String (Response × Bool) :=
  if valid_user_id user_id = false then
    .ok (.jsonResp invalidUserIdBody 400, false)
  else
    match mgmt.tokenResp with
    | .error e => .error e
    | .ok tok =>
      match tok.access_token with
      | none => .error "KeyError"
      | some _ =>
        match dresp with
        | .error e => .error e
        | .ok ok =>
          .ok (.jsonResp
            (.obj [("status", .str (if ok then "success" else "error"))]) 200, true)

/-- The JSON body POSTed to `/admin/create-user`: `email` and `password`
keys, each possibly absent (absence raises `KeyError` in the handler). -/
structure CreateBody where
  email : Option String
  password : Option String
deriving DecidableEq

/-- The `/admin/create-user` body (inside `requires_admin`). The M2M
token POST may raise; a token response without `access_token` raises
`KeyError`; a body without `email` or `password` raises `KeyError`; the
provider create POST may raise; `create_response.ok` answers
`status: success`, else 400 with the provider's message (or a default).
`cresp` is the create call's outcome: its `.ok` flag and optional
`message`. -/
def create_user (mgmt : MgmtApi) (cresp : Except String (Bool × Option String))
    (data : CreateBody) : Except String Response :=
  match mgmt.tokenResp with
  | .error e => .error e
  | .ok tok =>
    match tok.access_token with
    | none => .error "KeyError"
    | some _ =>
      match data.email, data.password with
      | some _, some _ =>
        match cresp with
        | .error e => .error e
        | .ok r =>
          if r.1 then
            .ok (.jsonResp (.obj [("status", .str "success")]) 200)
          else
            .ok (.jsonResp
              (.obj [("status", .str "error"),
                     ("message", .str (r.2.getD "Unknown error occurred"))]) 400)
      | _, _ => .error "KeyError"

/-! Concrete fixtures used by witness and counterexample theorems. -/

/-- A concrete environment: one signing key, audience `aud1`. -/
def envEx : Env :=
  { jwks := [⟨"kid1"⟩], audience := "aud1",
    auth0_domain := "tips.example", auth0_client_id := "client1" }

/-- Claims of a valid admin token carrying an email claim. -/
def adminClaims : Claims :=
  { sub := some "auth0|user1", email := some "tok@example.com",
    permissions := ["admin"], exp := 1000, aud := "aud1",
    iss := "https://tips.example/" }

/-- A token that validates under `envEx` at any time before 1000. -/
def adminToken : Token :=
  { malformed := false, kid := "kid1", sigValid := true, claims := adminClaims }

/-- The token set holding `adminToken`. -/
def adminTokenSet : TokenSet := ⟨adminToken⟩

/-- The session user `/callback` stores for `adminToken`. -/
def cbUser : User := { token := some adminTokenSet, permissions := ["admin"] }

/-- A logged-in admin session. -/
def adminSession : SessionData :=
  { user := some cbUser, simulation_session := none, return_to := none }

/-- A well-signed, unexpired token whose kid is not in `envEx`'s JWKS. -/
def unknownKidToken : Token :=
  { malformed := false, kid := "nokid", sigValid := true, claims := adminClaims }

/-- A well-signed token under `envEx` whose expiry (50) is in the past
at time 100. -/
def expiredToken : Token :=
  { malformed := false, kid := "kid1", sigValid := true,
    claims := { adminClaims with exp := 50 } }

/-- A well-signed, unexpired token whose audience differs from
`envEx`'s. -/
def wrongAudToken : Token :=
  { malformed := false, kid := "kid1", sigValid := true,
    claims := { adminClaims with aud := "other" } }

/-- Claims identical to `adminClaims` but without an email claim. -/
def noEmailClaims : Claims := { adminClaims with email := none }

/-- A valid admin token without an email claim. -/
def noEmailToken : Token :=
  { malformed := false, kid := "kid1", sigValid := true, claims := noEmailClaims }

/-- A session logged in with `noEmailToken`. -/
def noEmailSession : SessionData :=
  { user := some { token := some ⟨noEmailToken⟩, permissions := ["admin"] },
    simulation_session := none, return_to := none }

/-- A session whose stored access token's kid is absent from `envEx`'s
key set — the state the spec contemplates after provider key rotation. -/
def unknownKidSession : SessionData :=
  { user := some { token := some ⟨unknownKidToken⟩, permissions := ["admin"] },
    simulation_session := none, return_to := none }

/-- A Management API that always succeeds and resolves every user to
`mgmt@example.com`. -/
def mgmtEx : MgmtApi :=
  { tokenResp := .ok { access_token := some "m2m-token",
                       error := none, error_description := none },
    userResp := fun _ => .ok { email := some "mgmt@example.com" } }

/-- A handler outcome that is a structured value, not a raised
exception. -/
def isOk {α : Type} (x : Except String α) : Prop :=
  ∃ a, x = .ok a

end TIPSweb

namespace TIPSweb

/-- If `get_current_user_id` resolves a user id, the session holds a
user with a token whose fresh validation returned claims carrying that
subject. -/
theorem get_current_user_id_shape (env : Env) (now : Nat) (s : SessionData)
    (uid : String) (h : get_current_user_id env now s = .ok (some uid)) :
    ∃ u ts p, s.user = some u ∧ u.token = some ts ∧
      validate_token env now ts.access_token = .ok (some p) ∧
      p.sub = some uid := by
  unfold get_current_user_id at h
  split at h
  · simp at h
  · rename_i u hu
    split at h
    · simp at h
    · rename_i ts ht
      split at h
      · simp at h
      · simp at h
      · rename_i p hv
        rw [Except.ok.injEq] at h
        exact ⟨u, ts, p, hu, ht, hv, h⟩

/-- A token with a parseable header whose kid is absent from the JWKS
makes `validate_token` raise `JWKError` (the exception escapes the
except clause). -/
theorem validate_token_unknown_kid (env : Env) (now : Nat) (t : Token)
    (hm : t.malformed = false) (hk : find_public_key env.jwks t.kid = none) :
    validate_token env now t = .error "JWKError" := by
  simp [validate_token, jwt_decode, hm, hk]

/-- C3 counterexample: for the concrete well-signed, unexpired token
whose kid is not in the key set, the source `validate_token` raises
`JWKError` out of the function instead of returning an invalid result. -/
theorem validate_token_unknown_kid_raises :
    validate_token envEx 100 unknownKidToken = .error "JWKError" :=
  rfl

/-- C3 amended: a token with a parseable header whose key id is not in
the cached key set makes `validate_token` raise `JWKError` out of the
function — it never yields a claims payload, but by an escaping
exception rather than a returned invalid result; a token whose expiry
is in the past and a token whose audience differs from the configured
audience never yield a payload, and whenever their key id is found in
the key set they return the invalid result `None`. -/
theorem validate_token_bad_tokens_amended (env : Env) (now : Nat) (t : Token) :
    (t.malformed = false → find_public_key env.jwks t.kid = none →
       validate_token env now t = .error "JWKError") ∧
    (t.claims.exp < now →
       (∀ p, validate_token env now t ≠ .ok (some p)) ∧
       (∀ k, find_public_key env.jwks t.kid = some k →
          validate_token env now t = .ok none)) ∧
    (t.claims.aud ≠ env.audience →
       (∀ p, validate_token env now t ≠ .ok (some p)) ∧
       (∀ k, find_public_key env.jwks t.kid = some k →
          validate_token env now t = .ok none)) := by
  refine ⟨fun hm hk => validate_token_unknown_kid env now t hm hk,
          fun hexp => ⟨fun p => ?_, fun k hk => ?_⟩,
          fun haud => ⟨fun p => ?_, fun k hk => ?_⟩⟩
  · cases hm : t.malformed
    · rcases hk : find_public_key env.jwks t.kid with _ | k
      · simp [validate_token, jwt_decode, hm, hk]
      · cases hs : t.sigValid <;>
          simp [validate_token, jwt_decode, hm, hk, hs, Nat.le_of_lt hexp]
    · simp [validate_token, hm]
  · cases hm : t.malformed
    · cases hs : t.sigValid <;>
        simp [validate_token, jwt_decode, hm, hk, hs, Nat.le_of_lt hexp]
    · simp [validate_token, hm]
  · cases hm : t.malformed
    · rcases hk : find_public_key env.jwks t.kid with _ | k
      · simp [validate_token, jwt_decode, hm, hk]
      · cases hs : t.sigValid <;>
          by_cases he : t.claims.exp ≤ now <;>
          simp [validate_token, jwt_decode, hm, hk, hs, he, haud]
    · simp [validate_token, hm]
  · cases hm : t.malformed
    · cases hs : t.sigValid <;>
        by_cases he : t.claims.exp ≤ now <;>
        simp [validate_token, jwt_decode, hm, hk, hs, he, haud]
    · simp [validate_token, hm]

/-- C3 amended witness: at time 100 under `envEx`, the expired token and
the wrong-audience token (whose kid is found) both return `None`. -/
theorem validate_token_bad_tokens_amended_witness :
    validate_token envEx 100 expiredToken = .ok none ∧
    validate_token envEx 100 wrongAudToken = .ok none :=
  ⟨((validate_token_bad_tokens_amended envEx 100 expiredToken).2.1
      (by decide)).2 ⟨"kid1"⟩ (by decide),
   ((validate_token_bad_tokens_amended envEx 100 wrongAudToken).2.2
      (by decide)).2 ⟨"kid1"⟩ (by decide)⟩

/-- C2 counterexample: with a stored token whose kid is absent from the
current key set (the post-key-rotation state), the guard's unguarded
`validate_token` call raises `JWKError`, and the guard propagates an
unhandled exception instead of invoking or redirecting. -/
theorem requires_admin_unknown_kid_raises :
    requires_admin envEx 100 unknownKidSession = .error "JWKError" :=
  rfl

/-- C2 amended: the guard redirects to `/login` exactly when the session
has no user entry or the user entry lacks a token; with a stored token
it re-validates fresh, invokes the wrapped operation exactly when the
returned claims' permissions contain `"admin"`, raises exactly when
validation raises (the escaping `JWKError`, e.g. an unknown kid), and
in every other case redirects to the landing page; the decision never
depends on the permissions snapshot stored in the session. -/
theorem requires_admin_guard_amended (env : Env) (now : Nat) (s : SessionData) :
    (requires_admin env now s = .ok .redirectLogin ↔
       s.user = none ∨ ∃ u, s.user = some u ∧ u.token = none) ∧
    (∀ u ts, s.user = some u → u.token = some ts →
       ((requires_admin env now s = .ok .invoke ↔
           ∃ p, validate_token env now ts.access_token = .ok (some p) ∧
             "admin" ∈ p.permissions) ∧
        (∀ e, requires_admin env now s = .error e ↔
           validate_token env now ts.access_token = .error e) ∧
        (requires_admin env now s = .ok .invoke ∨
         requires_admin env now s = .ok .redirectIndex ∨
         ∃ e, requires_admin env now s = .error e))) ∧
    (∀ perms,
       requires_admin env now
         { s with user := s.user.map (fun u => { u with permissions := perms }) } =
       requires_admin env now s) := by
  refine ⟨?_, ?_, ?_⟩
  · rcases hu : s.user with _ | u
    · simp [requires_admin, hu]
    · rcases ht : u.token with _ | ts
      · simp [requires_admin, hu, ht]
      · rcases hv : validate_token env now ts.access_token with e | pm
        · simp [requires_admin, hu, ht, hv]
        · rcases pm with _ | p
          · simp [requires_admin, hu, ht, hv]
          · by_cases hadm : "admin" ∈ p.permissions <;>
              simp [requires_admin, hu, ht, hv, hadm]
  · intro u ts hu ht
    rcases hv : validate_token env now ts.access_token with e | pm
    · simp [requires_admin, hu, ht, hv]
    · rcases pm with _ | p
      · simp [requires_admin, hu, ht, hv]
      · by_cases hadm : "admin" ∈ p.permissions <;>
          simp [requires_admin, hu, ht, hv, hadm]
  · intro perms
    rcases hu : s.user with _ | u
    · simp [requires_admin, hu]
    · rcases ht : u.token with _ | ts
      · simp [requires_admin, hu, ht]
      · rcases hv : validate_token env now ts.access_token with e | pm <;>
          simp [requires_admin, hu, ht, hv]

/-- C2 amended witness: under `envEx` at time 100 the admin session is
let through, and the decision is unchanged when its stored permissions
snapshot is emptied. -/
theorem requires_admin_guard_amended_witness :
    requires_admin envEx 100 adminSession = .ok .invoke ∧
    requires_admin envEx 100
      { adminSession with
        user := adminSession.user.map (fun u => { u with permissions := [] }) } =
      requires_admin envEx 100 adminSession :=
  ⟨((requires_admin_guard_amended envEx 100 adminSession).2.1 cbUser adminTokenSet
      rfl rfl).1.mpr ⟨adminClaims, rfl, by decide⟩,
   (requires_admin_guard_amended envEx 100 adminSession).2.2 []⟩

/-- C7 counterexample: on a session whose stored token's kid is absent
from the key set, `/logout`'s user-resolution call — before the try and
before `session.clear()` — raises `JWKError`: the handler neither
clears the session nor redirects. -/
theorem logout_unknown_kid_raises :
    logout envEx 100 mgmtEx (.ok 200) unknownKidSession = .error "JWKError" :=
  rfl

/-- C7 amended: whenever resolving the current user does not raise (the
session is absent, lacks a token, or its stored token's validation
returns a result), `/logout` clears the session and redirects to the
provider's logout endpoint, whatever the outcome of the best-effort
backend deletion (success, non-200, or network failure); but when the
stored token's kid is absent from the key set, the `JWKError` escapes
before `session.clear()` and the session is not cleared. -/
theorem logout_clears_amended (env : Env) (now : Nat) (mgmt : MgmtApi)
    (backendDelete : Except String Nat) (s : SessionData) (uid : Option String)
    (h : get_current_user_id env now s = .ok uid) :
    logout env now mgmt backendDelete s =
      .ok (.redirect (logout_url env), emptySession) := by
  simp only [logout, h]
  cases h2 : logout_attempt mgmt backendDelete uid <;> simp [h2]

/-- C7 amended witness: with the admin session and a backend deletion
that raises a network failure, logout still clears and redirects. -/
theorem logout_clears_amended_witness :
    logout envEx 100 mgmtEx (.error "network down") adminSession =
      .ok (.redirect (logout_url envEx), emptySession) :=
  logout_clears_amended envEx 100 mgmtEx (.error "network down") adminSession
    (some "auth0|user1") rfl

/-- C1: starting from a session with no user entry, `/callback` stores
a user entry only when the code exchange produced a token set whose
access token passed full validation, and then its permissions field is
exactly the validated claims' permissions; if validation of the
exchanged access token does not produce a payload (a caught failure or
the escaping `JWKError`), no user entry — hence no permissions field —
is created. -/
theorem callback_permissions_only_from_validated_claims (env : Env) (now : Nat)
    (exch : ExchangeResult) (s : SessionData) (hs : s.user = none) :
    (∀ u, (callback env now exch s).2.user = some u →
       ∃ ts p, exch = .ok ts ∧
         validate_token env now ts.access_token = .ok (some p) ∧
         u.permissions = p.permissions ∧ u.token = some ts) ∧
    (∀ ts, exch = .ok ts →
       (∀ p, validate_token env now ts.access_token ≠ .ok (some p)) →
       (callback env now exch s).2.user = none) := by
  constructor
  · intro u hu
    rcases exch with msg | msg | ts
    · simp [callback, hs] at hu
    · simp [callback, hs] at hu
    · rcases hv : validate_token env now ts.access_token with e | pm
      · simp [callback, hv, hs] at hu
      · rcases pm with _ | p
        · simp [callback, hv, hs] at hu
        · rcases hr : s.return_to with _ | rt <;>
            simp only [callback, hv, hr] at hu <;>
          · rw [Option.some.injEq] at hu
            exact ⟨ts, p, rfl, hv, by rw [← hu], by rw [← hu]⟩
  · intro ts hts hnv
    subst hts
    rcases hv : validate_token env now ts.access_token with e | pm
    · simp [callback, hv, hs]
    · rcases pm with _ | p
      · simp [callback, hv, hs]
      · exact absurd hv (hnv p)

/-- C1 witness: a successful exchange of `adminToken` stores exactly the
validated claims' permissions, at the concrete fixture. -/
theorem callback_permissions_only_from_validated_claims_witness :
    ∃ ts p, ExchangeResult.ok adminTokenSet = ExchangeResult.ok ts ∧
      validate_token envEx 100 ts.access_token = .ok (some p) ∧
      cbUser.permissions = p.permissions ∧ cbUser.token = some ts :=
  (callback_permissions_only_from_validated_claims envEx 100
      (.ok adminTokenSet) emptySession rfl).1 cbUser (by rfl)

/-- C6: when the code exchange raises (an `HTTPError` or any other
exception) or validation of the exchanged access token fails — whether
the caught failure returning `None` or the escaping `JWKError`, both
caught by the handler's `except Exception` — `/callback` answers with
status 401 and leaves the session untouched, so a session with no user
entry still has none. -/
theorem callback_failure_401_session_absent (env : Env) (now : Nat)
    (s : SessionData) (hs : s.user = none) :
    (∀ msg, callback env now (.httpError msg) s = (.text msg 401, s) ∧
       (callback env now (.httpError msg) s).2.user = none) ∧
    (∀ msg, callback env now (.exnFailure msg) s = (.text msg 401, s) ∧
       (callback env now (.exnFailure msg) s).2.user = none) ∧
    (∀ ts, validate_token env now ts.access_token = .ok none →
       callback env now (.ok ts) s = (.text noneGetError 401, s) ∧
       (callback env now (.ok ts) s).2.user = none) ∧
    (∀ ts e, validate_token env now ts.access_token = .error e →
       callback env now (.ok ts) s = (.text e 401, s) ∧
       (callback env now (.ok ts) s).2.user = none) := by
  refine ⟨fun msg => ⟨rfl, hs⟩, fun msg => ⟨rfl, hs⟩,
          fun ts hv => ?_, fun ts e hv => ?_⟩
  · constructor
    · simp [callback, hv]
    · simp [callback, hv, hs]
  · constructor
    · simp [callback, hv]
    · simp [callback, hv, hs]

/-- C6 witness: at the concrete fixtures, an `HTTPError` exchange, a
caught validation failure (expired token) and the escaping `JWKError`
(unknown kid) each answer 401 with the session left empty. -/
theorem callback_failure_401_session_absent_witness :
    (callback envEx 100 (.httpError "boom") emptySession =
       (.text "boom" 401, emptySession) ∧
     (callback envEx 100 (.httpError "boom") emptySession).2.user = none) ∧
    (callback envEx 100 (.ok ⟨expiredToken⟩) emptySession =
       (.text noneGetError 401, emptySession) ∧
     (callback envEx 100 (.ok ⟨expiredToken⟩) emptySession).2.user = none) ∧
    (callback envEx 100 (.ok ⟨unknownKidToken⟩) emptySession =
       (.text "JWKError" 401, emptySession) ∧
     (callback envEx 100 (.ok ⟨unknownKidToken⟩) emptySession).2.user = none) :=
  ⟨(callback_failure_401_session_absent envEx 100 emptySession rfl).1 "boom",
   (callback_failure_401_session_absent envEx 100 emptySession rfl).2.2.1
     ⟨expiredToken⟩ rfl,
   (callback_failure_401_session_absent envEx 100 emptySession rfl).2.2.2
     ⟨unknownKidToken⟩ "JWKError" rfl⟩

/-- C9: a user id rejected by the `^[a-zA-Z0-9|_-]+$` pattern makes the
delete-user handler answer 400 with the exact error body and attempt no
provider call; an accepted user id proceeds to the provider deletion
call (given the M2M token call returned an access token and the delete
call did not raise). -/
theorem delete_user_validates_user_id (mgmt : MgmtApi)
    (dresp : Except String Bool) (user_id : String) :
    (valid_user_id user_id = false →
       delete_user mgmt dresp user_id =
         .ok (.jsonResp invalidUserIdBody 400, false)) ∧
    (∀ tok k b, valid_user_id user_id = true → mgmt.tokenResp = .ok tok →
       tok.access_token = some k → dresp = .ok b →
       delete_user mgmt dresp user_id =
         .ok (.jsonResp
           (.obj [("status", .str (if b then "success" else "error"))]) 200,
           true)) := by
  constructor
  · intro h
    simp [delete_user, h]
  · intro tok k b hval htok hk hb
    simp [delete_user, hval, htok, hk, hb]

/-- C9 witness: `abc;rm` is rejected with the 400 body and no provider
call, while `auth0|123` proceeds to the provider deletion call. -/
theorem delete_user_validates_user_id_witness :
    delete_user mgmtEx (.ok true) "abc;rm" =
      .ok (.jsonResp invalidUserIdBody 400, false) ∧
    delete_user mgmtEx (.ok true) "auth0|123" =
      .ok (.jsonResp (.obj [("status", .str "success")]) 200, true) :=
  ⟨(delete_user_validates_user_id mgmtEx (.ok true) "abc;rm").1 (by decide),
   by
    have h := (delete_user_validates_user_id mgmtEx (.ok true) "auth0|123").2
      { access_token := some "m2m-token", error := none, error_description := none }
      "m2m-token" true (by decide) rfl rfl rfl
    simpa using h⟩

/-- C10: whenever `/api/start-simulation-session` returns a structured
response, the session is modified only when the backend answered 200 —
and then only by storing the 200 body under `simulation_session`; on a
non-200 backend status or a backend network failure the session is left
exactly as it was. -/
theorem start_simulation_session_writes_only_on_200 (env : Env) (now : Nat)
    (mgmt : MgmtApi) (bresp : BackendResp) (s : SessionData)
    (out : Response × SessionData × List Json)
    (h : start_simulation_session env now mgmt bresp s = .ok out) :
    (out.2.1 ≠ s → ∃ data, bresp = .ok (200, data) ∧
       out.2.1 = { s with simulation_session := some data }) ∧
    (∀ e, bresp = .error e → out.2.1 = s) ∧
    (∀ code data, bresp = .ok (code, data) → code ≠ 200 → out.2.1 = s) := by
  unfold start_simulation_session at h
  split at h
  · exact absurd h (by simp)
  · injection h with h
    subst h
    exact ⟨fun hne => absurd rfl hne, fun e _ => rfl, fun c d _ _ => rfl⟩
  · split at h
    · exact absurd h (by simp)
    · split at h
      · exact absurd h (by simp)
      · split at h
        · exact absurd h (by simp)
        · exact absurd h (by simp)
        · split at h
          · exact absurd h (by simp)
          · injection h with h
            subst h
            exact ⟨fun hne => absurd rfl hne, fun e _ => rfl, fun c d _ _ => rfl⟩
          · split at h
            · injection h with h
              subst h
              exact ⟨fun hne => absurd rfl hne, fun e _ => rfl, fun c d _ _ => rfl⟩
            · dsimp only at h
              split at h
              · injection h with h
                subst h
                exact ⟨fun hne => absurd rfl hne, fun e _ => rfl, fun c d _ _ => rfl⟩
              · rename_i code data
                split at h
                · rename_i h200
                  injection h with h
                  subst h
                  subst h200
                  refine ⟨fun _ => ⟨data, rfl, rfl⟩, fun e he => ?_, ?_⟩
                  · exact absurd he (by simp)
                  · intro c d hcd hne
                    injection hcd with hcd
                    injection hcd with hc hd
                    exact absurd hc.symm hne
                · injection h with h
                  subst h
                  exact ⟨fun hne => absurd rfl hne, fun e _ => rfl, fun c d _ _ => rfl⟩

/-- C10 witness: with the admin session and a backend answering 500,
the handler's concrete output leaves the session unchanged. -/
theorem start_simulation_session_writes_only_on_200_witness :
    start_simulation_session envEx 100 mgmtEx (.ok (500, jNull)) adminSession =
      .ok (.jsonResp (backendStatusBody 500 jNull) 500, adminSession,
           [Json.obj [("user", JAtom.str "tok@example.com")]]) ∧
    (Response.jsonResp (backendStatusBody 500 jNull) 500, adminSession,
      [Json.obj [("user", JAtom.str "tok@example.com")]]).2.1 = adminSession :=
  ⟨rfl, (start_simulation_session_writes_only_on_200 envEx 100 mgmtEx
     (.ok (500, jNull)) adminSession _ rfl).2.2 500 jNull rfl (by decide)⟩

/-- C4 counterexample: a well-formed Bearer header whose token fails a
validation check that `validate_token` catches (here: expiry in the
past) is answered 200 with JSON null, not 400 — the claim's 400-on-
validation-failure does not hold on this failure mode. -/
theorem auth_info_caught_failure_answers_200_null :
    validate_token envEx 100 expiredToken = .ok none ∧
    auth_info envEx 100 (fun _ => expiredToken) (some "Bearer bad") =
      .ok (.jsonResp jNull 200) :=
  ⟨rfl, rfl⟩

/-- C4 amended: a missing or empty Authorization header yields 401 with
an error body; a well-formed Bearer header whose token's kid is absent
from the key set yields 400 (the escaping `JWKError` is caught by the
handler's `except Exception`); a well-formed Bearer header whose token
fails a caught validation check (malformed, bad signature, expired,
wrong audience or issuer) yields 200 with JSON null, not 400; and a
well-formed Bearer header whose token passes validation yields 200 with
the JSON claims. -/
theorem auth_info_amended (env : Env) (now : Nat) (parseTok : String → Token) :
    (auth_info env now parseTok none =
       .ok (.jsonResp (jsonError "Authorization header is missing") 401)) ∧
    (auth_info env now parseTok (some "") =
       .ok (.jsonResp (jsonError "Authorization header is missing") 401)) ∧
    (∀ h p0 t, h ≠ "" → pySplit h = [p0, t] → pyLower p0 = "bearer" →
       (((parseTok t).malformed = false →
           find_public_key env.jwks (parseTok t).kid = none →
           auth_info env now parseTok (some h) =
             .ok (.jsonResp (jsonError "JWKError") 400)) ∧
        (validate_token env now (parseTok t) = .ok none →
           auth_info env now parseTok (some h) = .ok (.jsonResp jNull 200)) ∧
        (∀ p, validate_token env now (parseTok t) = .ok (some p) →
           auth_info env now parseTok (some h) =
             .ok (.jsonResp (claimsJson p) 200)))) := by
  refine ⟨rfl, rfl, fun h p0 t hne hps hbear => ⟨fun hm hk => ?_, fun hv => ?_,
          fun p hv => ?_⟩⟩
  · have hv := validate_token_unknown_kid env now (parseTok t) hm hk
    simp [auth_info, hne, hps, hbear, hv]
  · simp [auth_info, hne, hps, hbear, hv, jsonifyPayload]
  · simp [auth_info, hne, hps, hbear, hv, jsonifyPayload]

/-- C4 amended witness: at the concrete fixtures, the unknown-kid token
is answered 400 with the JWKError text, and a valid token is answered
200 with its claims. -/
theorem auth_info_amended_witness :
    auth_info envEx 100 (fun _ => unknownKidToken) (some "Bearer bad") =
      .ok (.jsonResp (jsonError "JWKError") 400) ∧
    auth_info envEx 100 (fun _ => adminToken) (some "Bearer good") =
      .ok (.jsonResp (claimsJson adminClaims) 200) :=
  ⟨((auth_info_amended envEx 100 (fun _ => unknownKidToken)).2.2 "Bearer bad"
      "Bearer" "bad" (by decide) rfl rfl).1 rfl rfl,
   ((auth_info_amended envEx 100 (fun _ => adminToken)).2.2 "Bearer good"
      "Bearer" "good" (by decide) rfl rfl).2.2 adminClaims rfl⟩

/-- C5 counterexample: an Authorization header consisting only of
whitespace is non-empty (truthy), so the missing-header 401 is skipped,
but `split()` yields no parts and `parts[0]` raises an unhandled
`IndexError` — the handler does not return a structured response. -/
theorem auth_info_whitespace_header_unhandled :
    auth_info envEx 100 (fun _ => unknownKidToken) (some " ") =
      .error "IndexError" :=
  rfl

/-- An `Except.ok` value is a structured outcome. -/
theorem isOk_ok {α : Type} (a : α) : isOk (Except.ok a : Except String α) :=
  ⟨a, rfl⟩

/-- C5 amended: the modelled route handlers return structured responses
away from the known exception paths. `/auth/info` is structured whenever
the header is absent, empty, or splits into at least one part (a
non-empty all-whitespace header raises `IndexError`); `/logout`,
`/get_session`, `/delete_session` and `/api/start-simulation-session`
are structured whenever resolving the current user does not raise the
escaping `JWKError` (and, for start, whenever the out-of-try
Management-API email fallback does not raise); the admin guard is
structured whenever the fresh validation of a stored token does not
raise; and the admin operation bodies are structured whenever their
unguarded upstream calls return and carry the keys the code reads
without checking (`access_token`, and `email`/`password` in the posted
body). -/
theorem route_handlers_structured_amended (env : Env) (now : Nat)
    (parseTok : String → Token) (mgmt : MgmtApi) (bresp : BackendResp)
    (s : SessionData) (bdel : Except String Nat) (usersResp : Except String Json)
    (dresp : Except String Bool) (cresp : Except String (Bool × Option String))
    (data : CreateBody) (user_id : String) :
    (∀ h, h = "" ∨ pySplit h ≠ [] → isOk (auth_info env now parseTok (some h))) ∧
    isOk (auth_info env now parseTok none) ∧
    (∀ uid, get_current_user_id env now s = .ok uid →
       isOk (logout env now mgmt bdel s)) ∧
    (∀ uid, get_current_user_id env now s = .ok uid →
       isOk (get_session env now mgmt bresp s)) ∧
    (∀ uid, get_current_user_id env now s = .ok uid →
       isOk (delete_session env now mgmt bresp s)) ∧
    (∀ uid, get_current_user_id env now s = .ok uid →
       (∀ u0, isOk (get_user_email_from_auth0 mgmt u0)) →
       isOk (start_simulation_session env now mgmt bresp s)) ∧
    ((s.user = none → isOk (requires_admin env now s)) ∧
     (∀ u, s.user = some u → u.token = none → isOk (requires_admin env now s)) ∧
     (∀ u ts r, s.user = some u → u.token = some ts →
        validate_token env now ts.access_token = .ok r →
        isOk (requires_admin env now s))) ∧
    (∀ tok k us, mgmt.tokenResp = .ok tok → tok.error = none →
       tok.access_token = some k → usersResp = .ok us →
       isOk (admin_dashboard mgmt usersResp)) ∧
    (∀ tok k e pw cr, mgmt.tokenResp = .ok tok → tok.access_token = some k →
       data.email = some e → data.password = some pw → cresp = .ok cr →
       isOk (create_user mgmt cresp data)) ∧
    (∀ tok k b, mgmt.tokenResp = .ok tok → tok.access_token = some k →
       dresp = .ok b → isOk (delete_user mgmt dresp user_id)) := by
  refine ⟨?_, ?_, ?_, ?_, ?_, ?_, ⟨?_, ?_, ?_⟩, ?_, ?_, ?_⟩
  · intro h hcase
    by_cases he : h = ""
    · simp [auth_info, he]
      exact isOk_ok _
    · rcases hcase with hcase | hcase
      · exact absurd hcase he
      · rcases hps : pySplit h with _ | ⟨p0, rest⟩
        · exact absurd hps hcase
        · rcases rest with _ | ⟨t, rest2⟩
          · simp only [auth_info, if_neg he, hps]
            exact isOk_ok _
          · rcases rest2 with _ | ⟨r3, rest3⟩
            · by_cases hb : pyLower p0 = "bearer"
              · rcases hv : validate_token env now (parseTok t) with e | pm <;>
                  simp [auth_info, he, hps, hb, hv] <;> exact isOk_ok _
              · simp [auth_info, he, hps, hb]
                exact isOk_ok _
            · simp only [auth_info, if_neg he, hps]
              exact isOk_ok _
  · simp only [auth_info]
    exact isOk_ok _
  · intro uid huid
    simp only [logout, huid]
    cases h2 : logout_attempt mgmt bdel uid <;> simp [h2] <;> exact isOk_ok _
  · intro uid huid
    rcases uid with _ | uid0
    · simp only [get_session, huid]
      exact isOk_ok _
    · rcases hem : get_user_email_from_auth0 mgmt uid0 with e | em
      · simp only [get_session, huid, hem]
        exact isOk_ok _
      · rcases bresp with err | ⟨code, data0⟩
        · simp only [get_session, huid, hem]
          exact isOk_ok _
        · by_cases h200 : code = 200 <;>
            simp [get_session, huid, hem, h200] <;> exact isOk_ok _
  · intro uid huid
    rcases uid with _ | uid0
    · simp only [delete_session, huid]
      exact isOk_ok _
    · rcases hem : get_user_email_from_auth0 mgmt uid0 with e | em
      · simp only [delete_session, huid, hem]
        exact isOk_ok _
      · rcases bresp with err | ⟨code, data0⟩
        · simp only [delete_session, huid, hem]
          exact isOk_ok _
        · by_cases h200 : code = 200 <;>
            simp [delete_session, huid, hem, h200] <;> exact isOk_ok _
  · intro uid huid hmgmt
    rcases uid with _ | uid0
    · simp only [start_simulation_session, huid]
      exact isOk_ok _
    · obtain ⟨u, ts, p, hu, ht, hv, _⟩ := get_current_user_id_shape env now s uid0 huid
      have hres : ∃ em, resolve_email_with_fallback mgmt uid0 p = .ok em := by
        rcases hpe : p.email with _ | e0
        · simp only [resolve_email_with_fallback, hpe]
          exact hmgmt uid0
        · by_cases he0 : e0 = ""
          · simp only [resolve_email_with_fallback, hpe, he0, if_pos]
            exact hmgmt uid0
          · exact ⟨some e0, by simp [resolve_email_with_fallback, hpe, he0]⟩
      obtain ⟨em, hem⟩ := hres
      rcases em with _ | e1
      · simp only [start_simulation_session, huid, hu, ht, hv, hem]
        exact isOk_ok _
      · by_cases he1 : e1 = ""
        · simp [start_simulation_session, huid, hu, ht, hv, hem, he1]
          exact isOk_ok _
        · rcases bresp with err | ⟨code, data0⟩
          · simp [start_simulation_session, huid, hu, ht, hv, hem, he1]
            exact isOk_ok _
          · by_cases h200 : code = 200 <;>
              simp [start_simulation_session, huid, hu, ht, hv, hem, he1, h200] <;>
              exact isOk_ok _
  · intro hu
    simp only [requires_admin, hu]
    exact isOk_ok _
  · intro u hu ht
    simp only [requires_admin, hu, ht]
    exact isOk_ok _
  · intro u ts r hu ht hv
    rcases r with _ | p
    · simp only [requires_admin, hu, ht, hv]
      exact isOk_ok _
    · by_cases hadm : "admin" ∈ p.permissions <;>
        simp [requires_admin, hu, ht, hv, hadm] <;> exact isOk_ok _
  · intro tok k us htok herr hk hus
    simp only [admin_dashboard, htok, herr, hk, hus]
    exact isOk_ok _
  · intro tok k e pw cr htok hk he hpw hcr
    rcases cr with ⟨ok, msg⟩
    cases ok <;> simp [create_user, htok, hk, he, hpw, hcr] <;> exact isOk_ok _
  · intro tok k b htok hk hb
    by_cases hval : valid_user_id user_id = false
    · simp [delete_user, hval]
      exact isOk_ok _
    · simp [delete_user, hval, htok, hk, hb]
      exact isOk_ok _

/-- C5 amended witness: at the concrete fixtures, a well-formed Bearer
header, a logout with a network-failing backend deletion, and a
get-session call each return structured responses. -/
theorem route_handlers_structured_amended_witness :
    isOk (auth_info envEx 100 (fun _ => unknownKidToken) (some "Bearer bad")) ∧
    isOk (logout envEx 100 mgmtEx (.error "net") adminSession) ∧
    isOk (get_session envEx 100 mgmtEx (.ok (200, jNull)) adminSession) :=
  ⟨(route_handlers_structured_amended envEx 100 (fun _ => unknownKidToken) mgmtEx
      (.ok (200, jNull)) adminSession (.error "net") (.ok jNull) (.ok true)
      (.ok (true, none)) ⟨some "e@x", some "pw"⟩ "auth0|123").1 "Bearer bad"
     (Or.inr (by decide)),
   (route_handlers_structured_amended envEx 100 (fun _ => unknownKidToken) mgmtEx
      (.ok (200, jNull)) adminSession (.error "net") (.ok jNull) (.ok true)
      (.ok (true, none)) ⟨some "e@x", some "pw"⟩ "auth0|123").2.2.1
     (some "auth0|user1") rfl,
   (route_handlers_structured_amended envEx 100 (fun _ => unknownKidToken) mgmtEx
      (.ok (200, jNull)) adminSession (.error "net") (.ok jNull) (.ok true)
      (.ok (true, none)) ⟨some "e@x", some "pw"⟩ "auth0|123").2.2.2.1
     (some "auth0|user1") rfl⟩

/-- C8 counterexample: with a session token carrying the truthy email
claim `tok@example.com` and the Management API resolving the subject to
`mgmt@example.com`, `/get_session` sends the Management-API email to
the backend, not the token's email claim: the claimed token-email
preference does not hold for this operation. -/
theorem get_session_ignores_token_email_claim :
    adminClaims.email = some "tok@example.com" ∧
    get_session envEx 100 mgmtEx (.ok (200, jNull)) adminSession =
      .ok (.jsonResp jNull 200, adminSession,
           [Json.obj [("user", JAtom.str "mgmt@example.com")]]) :=
  ⟨rfl, rfl⟩

/-- C8 amended: `/api/start-simulation-session` sends the validated
token's email claim when it is truthy (present and non-empty) and the
Management-API lookup's result when it is falsy (absent or empty, the
source's `if not email:`), while `/get_session` and `/delete_session`
always send the Management-API lookup's result and never consult the
token's email claim. -/
theorem proxy_email_resolution_amended (env : Env) (now : Nat) (mgmt : MgmtApi)
    (bresp : BackendResp) (s : SessionData) :
    (∀ uid u ts p e out, get_current_user_id env now s = .ok (some uid) →
       s.user = some u → u.token = some ts →
       validate_token env now ts.access_token = .ok (some p) →
       p.email = some e → e ≠ "" →
       start_simulation_session env now mgmt bresp s = .ok out →
       ∀ b ∈ out.2.2, b = Json.obj [("user", .str e)]) ∧
    (∀ uid u ts p e out, get_current_user_id env now s = .ok (some uid) →
       s.user = some u → u.token = some ts →
       validate_token env now ts.access_token = .ok (some p) →
       (p.email = none ∨ p.email = some "") →
       get_user_email_from_auth0 mgmt uid = .ok (some e) →
       start_simulation_session env now mgmt bresp s = .ok out →
       ∀ b ∈ out.2.2, b = Json.obj [("user", .str e)]) ∧
    (∀ uid em out, get_current_user_id env now s = .ok (some uid) →
       get_user_email_from_auth0 mgmt uid = .ok em →
       get_session env now mgmt bresp s = .ok out →
       ∀ b ∈ out.2.2, b = Json.obj [("user", jOptStr em)]) ∧
    (∀ uid em out, get_current_user_id env now s = .ok (some uid) →
       get_user_email_from_auth0 mgmt uid = .ok em →
       delete_session env now mgmt bresp s = .ok out →
       ∀ b ∈ out.2.2, b = Json.obj [("user", jOptStr em)]) := by
  refine ⟨?_, ?_, ?_, ?_⟩
  · intro uid u ts p e out huid hu ht hv hpe hne hstart b hb
    have hres : resolve_email_with_fallback mgmt uid p = .ok (some e) := by
      simp [resolve_email_with_fallback, hpe, hne]
    simp only [start_simulation_session, huid, hu, ht, hv, hres] at hstart
    rw [if_neg hne] at hstart
    rcases bresp with err | ⟨code, data0⟩
    · simp only [] at hstart
      injection hstart with hstart
      subst hstart
      simp at hb
      simp [hb]
    · by_cases h200 : code = 200 <;> simp only [h200, reduceIte] at hstart <;>
      · injection hstart with hstart
        subst hstart
        simp at hb
        simp [hb]
  · intro uid u ts p e out huid hu ht hv hpe hlookup hstart b hb
    have hres : resolve_email_with_fallback mgmt uid p = .ok (some e) := by
      rcases hpe with hpe | hpe <;> simp [resolve_email_with_fallback, hpe] <;>
        exact hlookup
    simp only [start_simulation_session, huid, hu, ht, hv, hres] at hstart
    by_cases he : e = ""
    · rw [if_pos he] at hstart
      injection hstart with hstart
      subst hstart
      simp at hb
    · rw [if_neg he] at hstart
      rcases bresp with err | ⟨code, data0⟩
      · simp only [] at hstart
        injection hstart with hstart
        subst hstart
        simp at hb
        simp [hb]
      · by_cases h200 : code = 200 <;> simp only [h200, reduceIte] at hstart <;>
        · injection hstart with hstart
          subst hstart
          simp at hb
          simp [hb]
  · intro uid em out huid hem hout b hb
    simp only [get_session, huid, hem] at hout
    rcases bresp with err | ⟨code, data0⟩
    · simp only [] at hout
      injection hout with hout
      subst hout
      simp at hb
      simp [hb]
    · by_cases h200 : code = 200 <;> simp only [h200, reduceIte] at hout <;>
      · injection hout with hout
        subst hout
        simp at hb
        simp [hb]
  · intro uid em out huid hem hout b hb
    simp only [delete_session, huid, hem] at hout
    rcases bresp with err | ⟨code, data0⟩
    · simp only [] at hout
      injection hout with hout
      subst hout
      simp at hb
      simp [hb]
    · by_cases h200 : code = 200 <;> simp only [h200, reduceIte] at hout <;>
      · injection hout with hout
        subst hout
        simp at hb
        simp [hb]

/-- C8 amended witness: at the concrete fixtures, the start operation
sends the token's truthy email claim, and `/get_session` sends the
Management-API email. -/
theorem proxy_email_resolution_amended_witness :
    (start_simulation_session envEx 100 mgmtEx (.ok (200, jNull)) adminSession =
       .ok (.jsonResp jNull 200,
            { adminSession with simulation_session := some jNull },
            [Json.obj [("user", JAtom.str "tok@example.com")]]) ∧
     ∀ b ∈ [Json.obj [("user", JAtom.str "tok@example.com")]],
       b = Json.obj [("user", JAtom.str "tok@example.com")]) ∧
    (get_session envEx 100 mgmtEx (.ok (200, jNull)) adminSession =
       .ok (.jsonResp jNull 200, adminSession,
            [Json.obj [("user", JAtom.str "mgmt@example.com")]]) ∧
     ∀ b ∈ [Json.obj [("user", JAtom.str "mgmt@example.com")]],
       b = Json.obj [("user", jOptStr (some "mgmt@example.com"))]) :=
  ⟨⟨rfl, fun b hb =>
      (proxy_email_resolution_amended envEx 100 mgmtEx (.ok (200, jNull))
          adminSession).1 "auth0|user1" cbUser adminTokenSet adminClaims
        "tok@example.com" _ rfl rfl rfl rfl rfl (by decide) rfl b hb⟩,
   ⟨rfl, fun b hb =>
      (proxy_email_resolution_amended envEx 100 mgmtEx (.ok (200, jNull))
          adminSession).2.2.1 "auth0|user1" (some "mgmt@example.com") _
        rfl rfl rfl b hb⟩⟩
end TIPSweb
